import Mathlib

/-!
# Arthatrack spending-analytics engine: a shallow embedding

This file embeds `src/lib/aiAnalytics.ts` of the Arthatrack finance
tracker into Lean 4 and proves properties of the embedding.

Modelling conventions, fixed once here:

* JavaScript numbers (IEEE doubles) are modelled as exact rationals `ℚ`;
  decimal literals of the source (`0.7`, `2`, `100`) become the exact
  rationals they denote.
* A calendar date is modelled as a `(year, month, day)` triple.  The
  engine observes dates only through `format(date, 'yyyy-MM')`,
  `subMonths(now, 1)` followed by the same format, and
  `isWithinInterval(d, {start: startOfMonth(now), end: endOfMonth(now)})`;
  all three factor through the year-month of their argument, which is how
  they are modelled below (for valid dates, day `1..31`, month `1..12`,
  the interval test holds exactly when the year-months coincide).
* `new Date()` (the wall clock read by `analyzeSpendingTrend` and
  `calculateCurrentMonthSpending`) is modelled as an explicit `now`
  parameter threaded to every function whose JS original reads the clock.
  Functions whose originals never read the clock take no such parameter.
* A JS `Map<string, number>` is modelled as an association list in
  insertion order: `Map.set` of a fresh key appends, `Map.set` of a
  present key updates in place, and `Array.from(map.values())` is the
  ordered list of values — exactly the behaviour JS guarantees.
* `groupTransactionsByCategory` builds a plain JS object keyed by the
  numeric `category_id`.  JS enumerates integer-like object keys in
  ascending numeric order, and category ids are non-negative database
  ids, so the groups are modelled as the ascending list of distinct
  category ids, each paired with the subsequence of expense transactions
  carrying it (order preserved, as in the JS `push`).
* `Math.sqrt` has no exact rational counterpart.  The one comparison
  against a square root, `current > mean + 2 * stddev` in
  `detectUnusualSpending`, is embedded in the equivalent squared form
  `mean < current ∧ 4·variance < (current − mean)²`;
  `exceedsUnusualThreshold_iff` below proves this form equal to the
  real-number statement with `Real.sqrt`, so no behaviour is lost.
* String interpolation of numbers (`x.toFixed(1)`, `x.toFixed(2)`) is
  modelled as exact rational rendering via `toString`; the insight
  message texts keep the source's wording around those numbers.
* Division by zero follows the `ℚ` convention `q / 0 = 0` at the few
  spots the source could divide by zero; every such spot is either
  guarded in the source (`lastSpending === 0`) or commented at its
  definition below.
-/

set_option linter.unusedVariables false

namespace Arthatrack

/-- `TransactionType` from `src/types/index.ts`: `'income' | 'expense'`. -/
inductive TransactionType where
  | income
  | expense
deriving DecidableEq, Repr

/-- `Category` from `src/types/index.ts`, restricted to the fields the
analytics engine reads (`name`; `color`, `icon` and ownership metadata
are presentation-only and never consulted by `aiAnalytics.ts`). -/
structure Category where
  id : ℕ
  name : String
deriving DecidableEq, Repr

/-- A calendar date `(year, month, day)`; the model of the `date` string
field and of `new Date()`.  Valid data has `month ∈ 1..12`. -/
structure YMDate where
  year : ℤ
  month : ℕ
  day : ℕ
deriving DecidableEq, Repr

/-- `Transaction` from `src/types/index.ts`, restricted to the fields the
analytics engine reads (`id`, `description`, `created_at`, `user_id` are
never consulted by `aiAnalytics.ts` and are elided). -/
structure Transaction where
  amount : ℚ
  date : YMDate
  category_id : ℕ
  type : TransactionType
  category : Option Category
deriving DecidableEq, Repr

/-- The model of `format(date, 'yyyy-MM')`: the year-month key. -/
def monthKey (d : YMDate) : ℤ × ℕ :=
  (d.year, d.month)

/-- The model of `format(subMonths(now, 1), 'yyyy-MM')`: the year-month
key of the previous calendar month. -/
def prevMonthKey (d : YMDate) : ℤ × ℕ :=
  if d.month = 1 then (d.year - 1, 12) else (d.year, d.month - 1)

/-- A JS `Map<string, number>` keyed by `'yyyy-MM'` strings, in insertion
order. -/
abbrev MonthMap := List ((ℤ × ℕ) × ℚ)

/-- `map.get(k)`, as an `Option`. -/
def mapGet (m : MonthMap) (k : ℤ × ℕ) : Option ℚ :=
  match m with
  | [] => none
  | (k', v) :: rest => if k' = k then some v else mapGet rest k

/-- `map.set(k, map.get(k) || 0 + amt)` — the upsert both aggregation
loops perform: a present key is updated in place, a fresh key is
appended, preserving JS `Map` insertion order. -/
def mapBump (m : MonthMap) (k : ℤ × ℕ) (amt : ℚ) : MonthMap :=
  match m with
  | [] => [(k, amt)]
  | (k', v) :: rest =>
      if k' = k then (k', v + amt) :: rest else (k', v) :: mapBump rest k amt

/-- `calculateMonthlySpending` (`aiAnalytics.ts:103-115`): month-keyed
sums of the `expense`-typed transactions only. -/
def calculateMonthlySpending (transactions : List Transaction) : MonthMap :=
  transactions.foldl
    (fun m t =>
      if t.type = TransactionType.expense then mapBump m (monthKey t.date) t.amount else m)
    []

/-- `calculateMonthlyAmounts` (`aiAnalytics.ts:197-207`):
`Array.from(monthlyAmounts.values())` — monthly sums of ALL transactions
handed to it (its callers pass already-expense-filtered groups), in
first-occurrence order of the month keys. -/
def calculateMonthlyAmounts (transactions : List Transaction) : List ℚ :=
  (transactions.foldl (fun m t => mapBump m (monthKey t.date) t.amount) []).map Prod.snd

/-- `calculateMonthlyAverages` (`aiAnalytics.ts:209-212`):
`monthlyAmounts.slice(0, -1)`.  Note this drops the LAST-INSERTED month
bucket (the month whose key was first seen last in list order), which
coincides with the current calendar month only when the input happens to
introduce the current month's key last. -/
def calculateMonthlyAverages (transactions : List Transaction) : List ℚ :=
  (calculateMonthlyAmounts transactions).dropLast

/-- The model of
`isWithinInterval(d, {start: startOfMonth(now), end: endOfMonth(now)})`
(`aiAnalytics.ts:217-220`): membership in the current calendar month. -/
def inCurrentMonth (now : YMDate) (d : YMDate) : Bool :=
  monthKey d = monthKey now

/-- `calculateCurrentMonthSpending` (`aiAnalytics.ts:214-222`): the sum
of the amounts dated in the calendar month of `now` (the JS
`new Date()`). -/
def calculateCurrentMonthSpending (now : YMDate) (transactions : List Transaction) : ℚ :=
  ((transactions.filter (fun t => inCurrentMonth now t.date)).map Transaction.amount).sum

/-- The mean `values.reduce((sum, val) => sum + val, 0) / values.length`
both detection passes compute.  (`ℚ` convention: `[] → 0 / 0 = 0`; every
use site is guarded by `length ≥ 3`.) -/
def listMean (values : List ℚ) : ℚ :=
  values.sum / values.length

/-- The variance computed inside `calculateStandardDeviation`
(`aiAnalytics.ts:224-229`): population variance, divide by `N`.  The
source then takes `Math.sqrt` of this; see `exceedsUnusualThreshold`. -/
def calculateVariance (values : List ℚ) : ℚ :=
  ((values.map (fun v => (v - listMean values) ^ 2)).sum) / values.length

/-- `Math.min(...arr)` over a non-empty array.  (`ℚ` has no `+∞`; the
empty case, `Math.min()` = `Infinity` in JS, is unreachable behind the
`length ≥ 3` guard and is mapped to `0`.) -/
def listMin : List ℚ → ℚ
  | [] => 0
  | v :: rest => rest.foldl min v

/-- Insert into an ascending list of category ids. -/
def sortedInsert (n : ℕ) : List ℕ → List ℕ
  | [] => [n]
  | m :: rest => if n ≤ m then n :: m :: rest else m :: sortedInsert n rest

/-- Ascending sort of category ids, the enumeration order of
`Object.entries` over a JS object whose keys are non-negative integers. -/
def sortAsc (l : List ℕ) : List ℕ :=
  l.foldr sortedInsert []

/-- The `transaction.type === 'expense'` filter both
`calculateMonthlySpending` and `groupTransactionsByCategory` apply. -/
def expenseTransactions (transactions : List Transaction) : List Transaction :=
  transactions.filter (fun t => t.type = TransactionType.expense)

/-- The distinct elements of a list of category ids, in first-occurrence
order: the key-creation behaviour of `groups[categoryId] ||= []`. -/
def dedupKeys (l : List ℕ) : List ℕ :=
  l.foldl (fun acc n => if n ∈ acc then acc else acc ++ [n]) []

/-- The key set of the object built by `groupTransactionsByCategory`
(`aiAnalytics.ts:184-195`): the distinct category ids among the expense
transactions, in ascending order (JS integer-key enumeration order). -/
def categoryIds (transactions : List Transaction) : List ℕ :=
  sortAsc (dedupKeys ((expenseTransactions transactions).map Transaction.category_id))

/-- One bucket of `groupTransactionsByCategory`: the expense transactions
carrying `cid`, in input order (the order `push` produced). -/
def categoryGroup (transactions : List Transaction) (cid : ℕ) : List Transaction :=
  transactions.filter
    (fun t => t.type = TransactionType.expense ∧ t.category_id = cid)

/-- `groupTransactionsByCategory` (`aiAnalytics.ts:184-195`) followed by
`Object.entries`: the (category id, bucket) pairs the three per-category
passes iterate over. -/
def groupTransactionsByCategory (transactions : List Transaction) :
    List (ℕ × List Transaction) :=
  (categoryIds transactions).map (fun cid => (cid, categoryGroup transactions cid))

/-- `categoryTransactions[0].category?.name || 'Uncategorized'`: the
display name of a bucket.  JS `||` also replaces an empty name (falsy)
by the fallback; the empty-bucket case cannot arise from a group. -/
def categoryDisplayName : List Transaction → String
  | [] => "Uncategorized"
  | t :: _ =>
      match t.category with
      | some c => if c.name = "" then "Uncategorized" else c.name
      | none => "Uncategorized"

/-- The comparison `currentMonthSpending > average + 2 * standardDev`
(`aiAnalytics.ts:146`), with `standardDev = Math.sqrt(variance)`, in the
equivalent square-root-free form; `exceedsUnusualThreshold_iff` proves
the equivalence against the `Real.sqrt` reading. -/
def exceedsUnusualThreshold (current mean variance : ℚ) : Bool :=
  decide (mean < current) && decide (4 * variance < (current - mean) ^ 2)

/-- An entry of the array built by `detectUnusualSpending`. -/
structure UnusualCategory where
  name : String
  percentage : ℚ
deriving DecidableEq, Repr

/-- The body of the `detectUnusualSpending` loop (`aiAnalytics.ts:138-154`)
for one category id: `some` exactly when the category is flagged. -/
def unusualFor (now : YMDate) (transactions : List Transaction) (cid : ℕ) :
    Option UnusualCategory :=
  let ctxs := categoryGroup transactions cid
  let monthlyAverages := calculateMonthlyAverages ctxs
  let currentMonthSpending := calculateCurrentMonthSpending now ctxs
  if 3 ≤ monthlyAverages.length then
    let average := listMean monthlyAverages
    let variance := calculateVariance monthlyAverages
    if exceedsUnusualThreshold currentMonthSpending average variance then
      some { name := categoryDisplayName ctxs,
             percentage := (currentMonthSpending - average) / average * 100 }
    else none
  else none

/-- `detectUnusualSpending` (`aiAnalytics.ts:134-157`). -/
def detectUnusualSpending (now : YMDate) (transactions : List Transaction) :
    List UnusualCategory :=
  (categoryIds transactions).filterMap (unusualFor now transactions)

/-- The message text of a savings opportunity (`aiAnalytics.ts:173`);
`toFixed(2)` rendering is modelled as exact rational rendering. -/
def savingsMessage (name : String) (minimum potentialSavings : ℚ) : String :=
  "You have spent as low as £" ++ toString minimum ++ " on " ++ name ++
    " before. Targeting this could save you £" ++ toString potentialSavings ++
    " per month."

/-- An entry of the array built by `findSavingsOpportunities`. -/
structure SavingsOpportunity where
  message : String
  potentialSavings : ℚ
deriving DecidableEq, Repr

/-- The body of the `findSavingsOpportunities` loop
(`aiAnalytics.ts:163-178`) for one category id. -/
def savingsFor (transactions : List Transaction) (cid : ℕ) :
    Option SavingsOpportunity :=
  let ctxs := categoryGroup transactions cid
  let monthlyAmounts := calculateMonthlyAmounts ctxs
  if 3 ≤ monthlyAmounts.length then
    let average := listMean monthlyAmounts
    let minimum := listMin monthlyAmounts
    if minimum < average * (7 / 10) then
      some { message := savingsMessage (categoryDisplayName ctxs) minimum (average - minimum),
             potentialSavings := average - minimum }
    else none
  else none

/-- `findSavingsOpportunities` (`aiAnalytics.ts:159-181`). -/
def findSavingsOpportunities (transactions : List Transaction) :
    List SavingsOpportunity :=
  (categoryIds transactions).filterMap (savingsFor transactions)

/-! ## The regression library

`predictNextMonthSpending` fits `new SimpleLinearRegression(x, y)` from
the external `ml-regression-simple-linear` package.  The library is not
part of this repository; it is embedded from its documented closed-form
behaviour: ordinary least squares slope and intercept, `predict` as
evaluation of the fitted line, and `score`'s coefficient of
determination `r2` as the squared Pearson correlation between fitted and
observed values.  A zero denominator (degenerate training data) falls to
`0` by the `ℚ` convention. -/

/-- Dot product of two sample lists. -/
def listDot (a b : List ℚ) : ℚ :=
  (List.zipWith (fun p q => p * q) a b).sum

/-- OLS slope of `y` against `x`:
`(n·Σxy − Σx·Σy) / (n·Σx² − (Σx)²)`. -/
def olsSlope (x y : List ℚ) : ℚ :=
  (x.length * listDot x y - x.sum * y.sum) /
    (x.length * listDot x x - x.sum ^ 2)

/-- OLS intercept: `ȳ − slope·x̄`. -/
def olsIntercept (x y : List ℚ) : ℚ :=
  y.sum / y.length - olsSlope x y * (x.sum / x.length)

/-- `regression.predict(t)`: the fitted line at `t`. -/
def regressionPredict (x y : List ℚ) (t : ℚ) : ℚ :=
  olsSlope x y * t + olsIntercept x y

/-- Squared Pearson correlation of two sample lists:
`(n·Σab − Σa·Σb)² / ((n·Σa² − (Σa)²)·(n·Σb² − (Σb)²))`. -/
def pearsonSq (a b : List ℚ) : ℚ :=
  (a.length * listDot a b - a.sum * b.sum) ^ 2 /
    ((a.length * listDot a a - a.sum ^ 2) * (b.length * listDot b b - b.sum ^ 2))

/-- `regression.score(x, y)`'s coefficient of determination `r2`: the
squared Pearson correlation between the fitted values and `y`. -/
def regressionScore (x y : List ℚ) : ℚ :=
  pearsonSq (x.map (regressionPredict x y)) y

/-- `Math.max(0, Math.min(1, q))` (`aiAnalytics.ts:90`). -/
def clamp01 (q : ℚ) : ℚ :=
  max 0 (min 1 q)

/-- `CategoryPrediction` (`aiAnalytics.ts:13-17`). -/
structure CategoryPrediction where
  categoryId : ℕ
  predictedAmount : ℚ
  confidence : ℚ
deriving DecidableEq, Repr

/-- `monthlyAmounts.map((_, index) => index)` (`aiAnalytics.ts:80`): the
zero-based sample indices of a training list, as rationals. -/
def monthlyIndex (v : List ℚ) : List ℚ :=
  (List.range v.length).map (fun i => (i : ℚ))

/-- The body of the `predictNextMonthSpending` loop
(`aiAnalytics.ts:75-98`) for one category id: regression over
`(index, monthlyTotal)` pairs, prediction at the next index clamped to
non-negative, confidence clamped to `[0, 1]`. -/
def predictionFor (transactions : List Transaction) (cid : ℕ) :
    Option CategoryPrediction :=
  let monthlyAmounts := calculateMonthlyAmounts (categoryGroup transactions cid)
  if 3 ≤ monthlyAmounts.length then
    some { categoryId := cid,
           predictedAmount :=
             max 0 (regressionPredict (monthlyIndex monthlyAmounts) monthlyAmounts
                      monthlyAmounts.length),
           confidence :=
             clamp01 (regressionScore (monthlyIndex monthlyAmounts) monthlyAmounts) }
  else none

/-- `predictNextMonthSpending` (`aiAnalytics.ts:69-101`).  The JS
function is `async` only because its caller awaits it; it performs no
I/O and suspends nowhere, so its embedding is the underlying pure
function. -/
def predictNextMonthSpending (transactions : List Transaction) :
    List CategoryPrediction :=
  (categoryIds transactions).filterMap (predictionFor transactions)

/-- The trend direction values of `analyzeSpendingTrend`. -/
inductive Trend where
  | up
  | down
  | stable
deriving DecidableEq, Repr

/-- The `{trend, percentage}` object `analyzeSpendingTrend` returns. -/
structure TrendResult where
  trend : Trend
  percentage : ℚ
deriving DecidableEq, Repr

/-- `analyzeSpendingTrend` (`aiAnalytics.ts:117-132`): current versus
previous calendar month of `now`, with the zero-previous-month guard. -/
def analyzeSpendingTrend (now : YMDate) (monthlySpending : MonthMap) : TrendResult :=
  let currentSpending := (mapGet monthlySpending (monthKey now)).getD 0
  let lastSpending := (mapGet monthlySpending (prevMonthKey now)).getD 0
  if lastSpending = 0 then { trend := Trend.stable, percentage := 0 }
  else
    let percentageChange := (currentSpending - lastSpending) / lastSpending * 100
    { trend := if 0 < percentageChange then Trend.up else Trend.down,
      percentage := |percentageChange| }

/-- `SpendingInsight` (`aiAnalytics.ts:6-11`). -/
inductive InsightType where
  | warning
  | success
  | info
deriving DecidableEq, Repr

/-- `SpendingInsight` (`aiAnalytics.ts:6-11`): tagged message with
optional magnitude and optional trend direction. -/
structure SpendingInsight where
  type : InsightType
  message : String
  value : Option ℚ
  trend : Option Trend
deriving DecidableEq, Repr

/-- Trend-increase message (`aiAnalytics.ts:33`); `toFixed(1)` modelled
as exact rational rendering. -/
def trendIncreaseMessage (p : ℚ) : String :=
  "Your spending has increased by " ++ toString p ++ "% compared to last month"

/-- Trend-decrease message (`aiAnalytics.ts:40`). -/
def trendDecreaseMessage (p : ℚ) : String :=
  "Great job! You have reduced spending by " ++ toString p ++
    "% compared to last month"

/-- Unusual-spending message (`aiAnalytics.ts:50`). -/
def unusualMessage (name : String) (p : ℚ) : String :=
  "Unusual spending detected in " ++ name ++ ": " ++ toString p ++
    "% higher than average"

/-- The `if/else if` block of `analyzeSpendingPatterns`
(`aiAnalytics.ts:30-44`): at most one trend insight. -/
def trendInsights (st : TrendResult) : List SpendingInsight :=
  if st.trend = Trend.up ∧ 10 < st.percentage then
    [{ type := InsightType.warning, message := trendIncreaseMessage st.percentage,
       value := some st.percentage, trend := some Trend.up }]
  else if st.trend = Trend.down ∧ 10 < st.percentage then
    [{ type := InsightType.success, message := trendDecreaseMessage st.percentage,
       value := some st.percentage, trend := some Trend.down }]
  else []

/-- `analyzeSpendingPatterns` (`aiAnalytics.ts:19-67`): the trend insight
(if any), then one warning per unusual category, then one info insight
per savings opportunity. -/
def analyzeSpendingPatterns (now : YMDate) (transactions : List Transaction) :
    List SpendingInsight :=
  let spendingTrend := analyzeSpendingTrend now (calculateMonthlySpending transactions)
  trendInsights spendingTrend
    ++ (detectUnusualSpending now transactions).map
        (fun c =>
          { type := InsightType.warning, message := unusualMessage c.name c.percentage,
            value := some c.percentage, trend := some Trend.up })
    ++ (findSavingsOpportunities transactions).map
        (fun o =>
          { type := InsightType.info, message := o.message,
            value := some o.potentialSavings, trend := none })

/-- Removal of every `income`-typed transaction from an input list (the
transformation claim C8 quantifies over). -/
def removeIncome (transactions : List Transaction) : List Transaction :=
  transactions.filter (fun t => ¬ t.type = TransactionType.income)

/-! ## A reference reading of the anomaly baseline, from the spec

Spec §4.3 describes the anomaly baseline as "the set of historical
monthly totals excluding the current month".  The source instead drops
the last-inserted month bucket (`slice(0, -1)` in
`calculateMonthlyAverages`).  The following definition renders the
spec's words so the two can be compared. -/

/-- Spec §4.3 reading of the anomaly baseline: the monthly totals of the
given transactions for every month other than the calendar month of
`now`, in first-occurrence order. -/
def specHistoricalMonthlyTotals (now : YMDate) (transactions : List Transaction) :
    List ℚ :=
  ((transactions.foldl (fun m t => mapBump m (monthKey t.date) t.amount) []).filter
      (fun e => e.1 ≠ monthKey now)).map Prod.snd

/-! ## Concrete example data

One small constructor shared by the examples, then per-claim inputs. -/

/-- A transaction literal for examples: year, month, day, amount,
category id, type, with the category resolved to a named record. -/
def mkTx (y : ℤ) (m d : ℕ) (amt : ℚ) (cid : ℕ) (ty : TransactionType) : Transaction :=
  { amount := amt, date := ⟨y, m, d⟩, category_id := cid, type := ty,
    category := some ⟨cid, "Food"⟩ }

/-- C1 data: expenses of 100 in 2025-01 and 200 in 2025-02. -/
def txsC1x : List Transaction :=
  [mkTx 2025 1 10 100 1 TransactionType.expense,
   mkTx 2025 2 10 200 1 TransactionType.expense]

/-- C2 data: one category with monthly totals 10, 20, 30. -/
def txsC2x : List Transaction :=
  [mkTx 2025 1 5 10 1 TransactionType.expense,
   mkTx 2025 2 5 20 1 TransactionType.expense,
   mkTx 2025 3 5 30 1 TransactionType.expense]

/-- C3 failing input: category 1 spends 100 in each of 2025-01..03 and
1000 in 2025-04 (the current month), with the current-month transaction
FIRST in list order, so its month bucket is inserted first and
`slice(0, -1)` drops 2025-03 instead of the current month. -/
def txsC3x : List Transaction :=
  [mkTx 2025 4 10 1000 1 TransactionType.expense,
   mkTx 2025 1 10 100 1 TransactionType.expense,
   mkTx 2025 2 10 100 1 TransactionType.expense,
   mkTx 2025 3 10 100 1 TransactionType.expense]

/-- C4 data: a single expense in the current month 2025-05, nothing in
2025-04. -/
def txsC4x : List Transaction :=
  [mkTx 2025 5 10 100 1 TransactionType.expense]

/-- C5 data: one category with monthly totals 100, 100, 30. -/
def txsC5x : List Transaction :=
  [mkTx 2025 1 5 100 2 TransactionType.expense,
   mkTx 2025 2 5 100 2 TransactionType.expense,
   mkTx 2025 3 5 30 2 TransactionType.expense]

/-- C6 data: one category with monthly totals 10, 20, 30. -/
def txsC6x : List Transaction :=
  [mkTx 2024 7 5 10 4 TransactionType.expense,
   mkTx 2024 8 5 20 4 TransactionType.expense,
   mkTx 2024 9 5 30 4 TransactionType.expense]

/-- C7 data: one category with decreasing monthly totals 30, 20, 10, so
the fitted line extrapolates to 0 at the next index. -/
def txsC7x : List Transaction :=
  [mkTx 2025 1 5 30 1 TransactionType.expense,
   mkTx 2025 2 5 20 1 TransactionType.expense,
   mkTx 2025 3 5 10 1 TransactionType.expense]

/-- C9 data: an expense of 200 in 2025-02 and none in 2025-03. -/
def txsC9x : List Transaction :=
  [mkTx 2025 2 10 200 1 TransactionType.expense]

/-- C10 data: one category with monthly totals 100, 100, 30, which
produces an info insight. -/
def txsC10x : List Transaction :=
  [mkTx 2025 1 5 100 2 TransactionType.expense,
   mkTx 2025 2 5 100 2 TransactionType.expense,
   mkTx 2025 3 5 30 2 TransactionType.expense]

/-! ## Faithfulness of the square-root-free anomaly comparison -/

/-- The square-root-free form of `exceedsUnusualThreshold` agrees with
the source's comparison `current > mean + 2 * Math.sqrt(variance)` read
over the reals, for every non-negative variance. -/
theorem exceedsUnusualThreshold_iff (c m v : ℚ) (hv : 0 ≤ v) :
    exceedsUnusualThreshold c m v = true ↔
      (m : ℝ) + 2 * Real.sqrt (v : ℝ) < (c : ℝ) := by
  unfold exceedsUnusualThreshold
  rw [Bool.and_eq_true, decide_eq_true_iff, decide_eq_true_iff]
  have hv' : (0 : ℝ) ≤ (v : ℝ) := by exact_mod_cast hv
  have hs : (0 : ℝ) ≤ Real.sqrt (v : ℝ) := Real.sqrt_nonneg _
  have hsq : Real.sqrt (v : ℝ) ^ 2 = (v : ℝ) := Real.sq_sqrt hv'
  constructor
  · rintro ⟨h1, h2⟩
    have h1' : (m : ℝ) < (c : ℝ) := by exact_mod_cast h1
    have h2' : 4 * (v : ℝ) < ((c : ℝ) - (m : ℝ)) ^ 2 := by exact_mod_cast h2
    nlinarith [hs, hsq, h1', h2', sq_nonneg ((c : ℝ) - (m : ℝ) - 2 * Real.sqrt (v : ℝ)),
      sq_nonneg ((c : ℝ) - (m : ℝ) + 2 * Real.sqrt (v : ℝ))]
  · intro h
    have h1 : (m : ℝ) < (c : ℝ) := by nlinarith
    have h2 : 4 * (v : ℝ) < ((c : ℝ) - (m : ℝ)) ^ 2 := by nlinarith
    exact ⟨by exact_mod_cast h1, by exact_mod_cast h2⟩

/-! ## Prediction membership helpers -/

/-- Membership in the prediction list, unfolded to the per-category
loop body. -/
theorem predict_mem_iff (txs : List Transaction) (p : CategoryPrediction) :
    p ∈ predictNextMonthSpending txs ↔
      ∃ cid, cid ∈ categoryIds txs ∧ predictionFor txs cid = some p := by
  simp [predictNextMonthSpending, List.mem_filterMap]

/-- What a successful per-category prediction looks like. -/
theorem predictionFor_eq_some {txs : List Transaction} {cid : ℕ}
    {p : CategoryPrediction} (h : predictionFor txs cid = some p) :
    3 ≤ (calculateMonthlyAmounts (categoryGroup txs cid)).length ∧
    p = { categoryId := cid,
          predictedAmount := max 0 (regressionPredict
            (monthlyIndex (calculateMonthlyAmounts (categoryGroup txs cid)))
            (calculateMonthlyAmounts (categoryGroup txs cid))
            (calculateMonthlyAmounts (categoryGroup txs cid)).length),
          confidence := clamp01 (regressionScore
            (monthlyIndex (calculateMonthlyAmounts (categoryGroup txs cid)))
            (calculateMonthlyAmounts (categoryGroup txs cid))) } := by
  by_cases hlen : 3 ≤ (calculateMonthlyAmounts (categoryGroup txs cid)).length
  · simp only [predictionFor, if_pos hlen] at h
    exact ⟨hlen, (Option.some.inj h).symm⟩
  · simp only [predictionFor, if_neg hlen] at h
    cases h

/-- Claim C7: no entry returned by `predictNextMonthSpending` has a
negative `predictedAmount`, for every input transaction list. -/
theorem c7_predictions_nonneg (txs : List Transaction) (p : CategoryPrediction)
    (hp : p ∈ predictNextMonthSpending txs) : 0 ≤ p.predictedAmount := by
  rcases (predict_mem_iff txs p).mp hp with ⟨cid, _, hsome⟩
  rcases predictionFor_eq_some hsome with ⟨_, rfl⟩
  exact le_max_left 0 _

/-- Witness for C7 at a category whose fitted line hits exactly 0 at the
next index (monthly totals 30, 20, 10). -/
theorem c7_witness :
    (⟨1, 0, 1⟩ : CategoryPrediction) ∈ predictNextMonthSpending txsC7x ∧
    (0 : ℚ) ≤ (⟨1, 0, 1⟩ : CategoryPrediction).predictedAmount := by
  have h : predictNextMonthSpending txsC7x = [⟨1, 0, 1⟩] := by
    have hr : List.range 3 = [0, 1, 2] := by decide
    norm_num [hr, List.zipWith_cons_cons, List.zipWith_nil_right, List.sum_cons,
      List.sum_nil, predictNextMonthSpending, txsC7x, mkTx, categoryIds,
      expenseTransactions, sortAsc, sortedInsert, dedupKeys, categoryGroup,
      predictionFor, calculateMonthlyAmounts, mapBump, monthKey, List.filter,
      monthlyIndex, regressionPredict, olsSlope, olsIntercept, regressionScore,
      pearsonSq, listDot, clamp01, List.filterMap, List.foldl]
  have hmem : (⟨1, 0, 1⟩ : CategoryPrediction) ∈ predictNextMonthSpending txsC7x := by
    rw [h]; exact List.mem_singleton.mpr rfl
  exact ⟨hmem, c7_predictions_nonneg txsC7x ⟨1, 0, 1⟩ hmem⟩

/-- Claim C2: every returned confidence equals the clamped coefficient
of determination of the category's fit and lies in `[0, 1]`. -/
theorem c2_confidence_is_clamped_rsquared (txs : List Transaction)
    (p : CategoryPrediction) (hp : p ∈ predictNextMonthSpending txs) :
    p.confidence =
      clamp01 (regressionScore
        (monthlyIndex (calculateMonthlyAmounts (categoryGroup txs p.categoryId)))
        (calculateMonthlyAmounts (categoryGroup txs p.categoryId))) ∧
    0 ≤ p.confidence ∧ p.confidence ≤ 1 := by
  rcases (predict_mem_iff txs p).mp hp with ⟨cid, _, hsome⟩
  rcases predictionFor_eq_some hsome with ⟨_, rfl⟩
  exact ⟨rfl, le_max_left _ _, max_le (by norm_num) (min_le_left _ _)⟩

/-- Witness for C2 at the perfect-fit data 10, 20, 30. -/
theorem c2_witness :
    (⟨1, 40, 1⟩ : CategoryPrediction) ∈ predictNextMonthSpending txsC2x ∧
    ((⟨1, 40, 1⟩ : CategoryPrediction).confidence =
        clamp01 (regressionScore
          (monthlyIndex (calculateMonthlyAmounts (categoryGroup txsC2x 1)))
          (calculateMonthlyAmounts (categoryGroup txsC2x 1))) ∧
      0 ≤ (⟨1, 40, 1⟩ : CategoryPrediction).confidence ∧
      (⟨1, 40, 1⟩ : CategoryPrediction).confidence ≤ 1) := by
  have h : predictNextMonthSpending txsC2x = [⟨1, 40, 1⟩] := by
    have hr : List.range 3 = [0, 1, 2] := by decide
    norm_num [hr, List.zipWith_cons_cons, List.zipWith_nil_right, List.sum_cons,
      List.sum_nil, predictNextMonthSpending, txsC2x, mkTx, categoryIds,
      expenseTransactions, sortAsc, sortedInsert, dedupKeys, categoryGroup,
      predictionFor, calculateMonthlyAmounts, mapBump, monthKey, List.filter,
      monthlyIndex, regressionPredict, olsSlope, olsIntercept, regressionScore,
      pearsonSq, listDot, clamp01, List.filterMap, List.foldl]
  have hmem : (⟨1, 40, 1⟩ : CategoryPrediction) ∈ predictNextMonthSpending txsC2x := by
    rw [h]; exact List.mem_singleton.mpr rfl
  exact ⟨hmem, c2_confidence_is_clamped_rsquared txsC2x ⟨1, 40, 1⟩ hmem⟩

/-- Claim C4: a zero previous-month expense total forces trend `stable`
with percentage 0, regardless of the current month's total. -/
theorem c4_zero_previous_month_stable (now : YMDate) (txs : List Transaction)
    (h : (mapGet (calculateMonthlySpending txs) (prevMonthKey now)).getD 0 = 0) :
    analyzeSpendingTrend now (calculateMonthlySpending txs) =
      { trend := Trend.stable, percentage := 0 } := by
  simp [analyzeSpendingTrend, h]

/-- Witness for C4: current month 2025-05 spends 100, previous month
2025-04 has no data. -/
theorem c4_witness :
    (mapGet (calculateMonthlySpending txsC4x) (prevMonthKey ⟨2025, 5, 15⟩)).getD 0 = 0 ∧
    analyzeSpendingTrend ⟨2025, 5, 15⟩ (calculateMonthlySpending txsC4x) =
      { trend := Trend.stable, percentage := 0 } := by
  have h : (mapGet (calculateMonthlySpending txsC4x) (prevMonthKey ⟨2025, 5, 15⟩)).getD 0 = 0 := by
    norm_num [mapGet, calculateMonthlySpending, mapBump, monthKey, prevMonthKey,
      txsC4x, mkTx, List.foldl]
  exact ⟨h, c4_zero_previous_month_stable ⟨2025, 5, 15⟩ txsC4x h⟩

/-- Claim C9: a strictly positive previous month followed by an empty
current month is reported as a 100% reduction: the analysis output
starts with a success insight, trend `down`, percentage 100. -/
theorem c9_empty_current_month_full_reduction (now : YMDate) (txs : List Transaction)
    (hpos : 0 < (mapGet (calculateMonthlySpending txs) (prevMonthKey now)).getD 0)
    (hzero : (mapGet (calculateMonthlySpending txs) (monthKey now)).getD 0 = 0) :
    (analyzeSpendingPatterns now txs).head? =
      some { type := InsightType.success, message := trendDecreaseMessage 100,
             value := some 100, trend := some Trend.down } := by
  have hL : (mapGet (calculateMonthlySpending txs) (prevMonthKey now)).getD 0 ≠ 0 :=
    ne_of_gt hpos
  have hchg : ((mapGet (calculateMonthlySpending txs) (monthKey now)).getD 0 -
        (mapGet (calculateMonthlySpending txs) (prevMonthKey now)).getD 0) /
        (mapGet (calculateMonthlySpending txs) (prevMonthKey now)).getD 0 * 100 = -100 := by
    rw [hzero]
    field_simp
  have ht : analyzeSpendingTrend now (calculateMonthlySpending txs) =
      { trend := Trend.down, percentage := 100 } := by
    simp only [analyzeSpendingTrend, if_neg hL, hchg]
    norm_num
  have hti : trendInsights { trend := Trend.down, percentage := 100 } =
      [{ type := InsightType.success, message := trendDecreaseMessage 100,
         value := some 100, trend := some Trend.down }] := by
    norm_num [trendInsights]
    exact fun hc => by cases hc
  simp only [analyzeSpendingPatterns, ht, hti]
  simp

/-- Witness for C9: 200 spent in 2025-02, clock at 2025-03-15. -/
theorem c9_witness :
    0 < (mapGet (calculateMonthlySpending txsC9x) (prevMonthKey ⟨2025, 3, 15⟩)).getD 0 ∧
    (mapGet (calculateMonthlySpending txsC9x) (monthKey ⟨2025, 3, 15⟩)).getD 0 = 0 ∧
    (analyzeSpendingPatterns ⟨2025, 3, 15⟩ txsC9x).head? =
      some { type := InsightType.success, message := trendDecreaseMessage 100,
             value := some 100, trend := some Trend.down } := by
  have h1 : 0 < (mapGet (calculateMonthlySpending txsC9x) (prevMonthKey ⟨2025, 3, 15⟩)).getD 0 := by
    norm_num [mapGet, calculateMonthlySpending, mapBump, monthKey, prevMonthKey,
      txsC9x, mkTx, List.foldl]
  have h2 : (mapGet (calculateMonthlySpending txsC9x) (monthKey ⟨2025, 3, 15⟩)).getD 0 = 0 := by
    norm_num [mapGet, calculateMonthlySpending, mapBump, monthKey, txsC9x, mkTx,
      List.foldl]
  exact ⟨h1, h2, c9_empty_current_month_full_reduction ⟨2025, 3, 15⟩ txsC9x h1 h2⟩

/-- Claim C6: a category whose monthly totals are exactly 10, 20, 30
receives the prediction 40 at the next index with confidence 1. -/
theorem c6_perfect_linear_fit (txs : List Transaction) (cid : ℕ)
    (hmem : cid ∈ categoryIds txs)
    (hv : calculateMonthlyAmounts (categoryGroup txs cid) = [10, 20, 30]) :
    (⟨cid, 40, 1⟩ : CategoryPrediction) ∈ predictNextMonthSpending txs := by
  refine (predict_mem_iff txs ⟨cid, 40, 1⟩).mpr ⟨cid, hmem, ?_⟩
  have hr : List.range 3 = [0, 1, 2] := by decide
  simp only [predictionFor, hv]
  norm_num [hr, List.zipWith_cons_cons, List.zipWith_nil_right, List.sum_cons,
    List.sum_nil, monthlyIndex, regressionPredict, olsSlope, olsIntercept,
    regressionScore, pearsonSq, listDot, clamp01]

/-- Witness for C6 at three concrete transactions of 10, 20, 30. -/
theorem c6_witness :
    4 ∈ categoryIds txsC6x ∧
    calculateMonthlyAmounts (categoryGroup txsC6x 4) = [10, 20, 30] ∧
    (⟨4, 40, 1⟩ : CategoryPrediction) ∈ predictNextMonthSpending txsC6x := by
  have hmem : 4 ∈ categoryIds txsC6x := by
    norm_num [categoryIds, dedupKeys, sortAsc, sortedInsert, expenseTransactions,
      txsC6x, mkTx, List.filter, List.foldl]
  have hv : calculateMonthlyAmounts (categoryGroup txsC6x 4) = [10, 20, 30] := by
    norm_num [calculateMonthlyAmounts, categoryGroup, mapBump, monthKey, txsC6x,
      mkTx, List.filter, List.foldl]
  exact ⟨hmem, hv, c6_perfect_linear_fit txsC6x 4 hmem hv⟩

/-- Claim C10: in every returned insight, a `warning` carries trend `up`,
a `success` carries trend `down`, and an `info` carries no trend. -/
theorem c10_type_trend_coherence (now : YMDate) (txs : List Transaction)
    (i : SpendingInsight) (hi : i ∈ analyzeSpendingPatterns now txs) :
    (i.type = InsightType.warning → i.trend = some Trend.up) ∧
    (i.type = InsightType.success → i.trend = some Trend.down) ∧
    (i.type = InsightType.info → i.trend = none) := by
  simp only [analyzeSpendingPatterns, List.mem_append] at hi
  rcases hi with (h | h) | h
  · unfold trendInsights at h
    split_ifs at h with h1 h2
    · rcases List.mem_singleton.mp h with rfl
      refine ⟨fun _ => rfl, fun hc => ?_, fun hc => ?_⟩ <;> cases hc
    · rcases List.mem_singleton.mp h with rfl
      refine ⟨fun hc => ?_, fun _ => rfl, fun hc => ?_⟩ <;> cases hc
    · cases h
  · rcases List.mem_map.mp h with ⟨c, _, rfl⟩
    refine ⟨fun _ => rfl, fun hc => ?_, fun hc => ?_⟩ <;> cases hc
  · rcases List.mem_map.mp h with ⟨o, _, rfl⟩
    refine ⟨fun hc => ?_, fun hc => ?_, fun _ => rfl⟩ <;> cases hc

/-- Witness for C10 at a concrete info insight. -/
theorem c10_witness :
    ({ type := InsightType.info,
       message := savingsMessage "Food" 30 (140 / 3),
       value := some (140 / 3), trend := none } : SpendingInsight) ∈
      analyzeSpendingPatterns ⟨2026, 1, 1⟩ txsC10x ∧
    (({ type := InsightType.info,
        message := savingsMessage "Food" 30 (140 / 3),
        value := some (140 / 3), trend := none } : SpendingInsight).type =
          InsightType.info →
      ({ type := InsightType.info,
         message := savingsMessage "Food" 30 (140 / 3),
         value := some (140 / 3), trend := none } : SpendingInsight).trend = none) := by
  have h : analyzeSpendingPatterns ⟨2026, 1, 1⟩ txsC10x =
      [{ type := InsightType.info,
         message := savingsMessage "Food" 30 (140 / 3),
         value := some (140 / 3), trend := none }] := by
    have hfood : (if ("Food" : String) = "" then "Uncategorized" else "Food") = "Food" := by
      rw [if_neg]; decide
    norm_num [analyzeSpendingPatterns, analyzeSpendingTrend, calculateMonthlySpending,
      mapBump, mapGet, monthKey, prevMonthKey, trendInsights, detectUnusualSpending,
      unusualFor, calculateMonthlyAverages, calculateMonthlyAmounts,
      calculateCurrentMonthSpending, inCurrentMonth, listMean, calculateVariance,
      exceedsUnusualThreshold, findSavingsOpportunities, savingsFor, listMin,
      categoryIds, dedupKeys, sortAsc, sortedInsert, expenseTransactions,
      categoryGroup, categoryDisplayName, txsC10x, mkTx, List.filter, List.filterMap,
      List.foldl, hfood]
  have hmem : (SpendingInsight.mk InsightType.info (savingsMessage "Food" 30 (140 / 3))
      (some (140 / 3)) none) ∈ analyzeSpendingPatterns ⟨2026, 1, 1⟩ txsC10x := by
    rw [h]; exact List.mem_singleton.mpr rfl
  exact ⟨hmem,
    (c10_type_trend_coherence ⟨2026, 1, 1⟩ txsC10x
      (SpendingInsight.mk InsightType.info (savingsMessage "Food" 30 (140 / 3))
        (some (140 / 3)) none) hmem).2.2⟩

/-- Claim C5: with at least three monthly totals, a savings opportunity
is emitted for a category exactly when the minimum monthly total is
strictly below 0.7 of the mean, carrying `mean - minimum` as the
potential saving; every emitted opportunity surfaces as an info insight
of the analysis output. -/
theorem c5_savings_opportunity_iff (now : YMDate) (txs : List Transaction) (cid : ℕ)
    (hlen : 3 ≤ (calculateMonthlyAmounts (categoryGroup txs cid)).length) :
    (listMin (calculateMonthlyAmounts (categoryGroup txs cid)) <
        listMean (calculateMonthlyAmounts (categoryGroup txs cid)) * (7 / 10) →
      savingsFor txs cid = some
        (SavingsOpportunity.mk
          (savingsMessage (categoryDisplayName (categoryGroup txs cid))
            (listMin (calculateMonthlyAmounts (categoryGroup txs cid)))
            (listMean (calculateMonthlyAmounts (categoryGroup txs cid)) -
              listMin (calculateMonthlyAmounts (categoryGroup txs cid))))
          (listMean (calculateMonthlyAmounts (categoryGroup txs cid)) -
            listMin (calculateMonthlyAmounts (categoryGroup txs cid)))) ∧
      (cid ∈ categoryIds txs →
        (SpendingInsight.mk InsightType.info
          (savingsMessage (categoryDisplayName (categoryGroup txs cid))
            (listMin (calculateMonthlyAmounts (categoryGroup txs cid)))
            (listMean (calculateMonthlyAmounts (categoryGroup txs cid)) -
              listMin (calculateMonthlyAmounts (categoryGroup txs cid))))
          (some (listMean (calculateMonthlyAmounts (categoryGroup txs cid)) -
            listMin (calculateMonthlyAmounts (categoryGroup txs cid))))
          none) ∈ analyzeSpendingPatterns now txs)) ∧
    (¬ listMin (calculateMonthlyAmounts (categoryGroup txs cid)) <
        listMean (calculateMonthlyAmounts (categoryGroup txs cid)) * (7 / 10) →
      savingsFor txs cid = none) := by
  constructor
  · intro hc
    have hsf : savingsFor txs cid = some
        (SavingsOpportunity.mk
          (savingsMessage (categoryDisplayName (categoryGroup txs cid))
            (listMin (calculateMonthlyAmounts (categoryGroup txs cid)))
            (listMean (calculateMonthlyAmounts (categoryGroup txs cid)) -
              listMin (calculateMonthlyAmounts (categoryGroup txs cid))))
          (listMean (calculateMonthlyAmounts (categoryGroup txs cid)) -
            listMin (calculateMonthlyAmounts (categoryGroup txs cid)))) := by
      simp only [savingsFor]
      rw [if_pos hlen, if_pos hc]
    refine ⟨hsf, fun hid => ?_⟩
    have hmemS : SavingsOpportunity.mk
        (savingsMessage (categoryDisplayName (categoryGroup txs cid))
          (listMin (calculateMonthlyAmounts (categoryGroup txs cid)))
          (listMean (calculateMonthlyAmounts (categoryGroup txs cid)) -
            listMin (calculateMonthlyAmounts (categoryGroup txs cid))))
        (listMean (calculateMonthlyAmounts (categoryGroup txs cid)) -
          listMin (calculateMonthlyAmounts (categoryGroup txs cid))) ∈
        findSavingsOpportunities txs :=
      List.mem_filterMap.mpr ⟨cid, hid, hsf⟩
    simp only [analyzeSpendingPatterns]
    exact List.mem_append_right _ (List.mem_map.mpr ⟨_, hmemS, rfl⟩)
  · intro hc
    simp only [savingsFor]
    rw [if_pos hlen, if_neg hc]

/-- Witness for C5 at monthly totals 100, 100, 30 (mean 230/3, minimum
30, saving 140/3 ≈ 46.67). -/
theorem c5_witness :
    3 ≤ (calculateMonthlyAmounts (categoryGroup txsC5x 2)).length ∧
    listMin (calculateMonthlyAmounts (categoryGroup txsC5x 2)) <
      listMean (calculateMonthlyAmounts (categoryGroup txsC5x 2)) * (7 / 10) ∧
    2 ∈ categoryIds txsC5x ∧
    savingsFor txsC5x 2 = some
      (SavingsOpportunity.mk
        (savingsMessage (categoryDisplayName (categoryGroup txsC5x 2))
          (listMin (calculateMonthlyAmounts (categoryGroup txsC5x 2)))
          (listMean (calculateMonthlyAmounts (categoryGroup txsC5x 2)) -
            listMin (calculateMonthlyAmounts (categoryGroup txsC5x 2))))
        (listMean (calculateMonthlyAmounts (categoryGroup txsC5x 2)) -
          listMin (calculateMonthlyAmounts (categoryGroup txsC5x 2)))) ∧
    (SpendingInsight.mk InsightType.info
      (savingsMessage (categoryDisplayName (categoryGroup txsC5x 2))
        (listMin (calculateMonthlyAmounts (categoryGroup txsC5x 2)))
        (listMean (calculateMonthlyAmounts (categoryGroup txsC5x 2)) -
          listMin (calculateMonthlyAmounts (categoryGroup txsC5x 2))))
      (some (listMean (calculateMonthlyAmounts (categoryGroup txsC5x 2)) -
        listMin (calculateMonthlyAmounts (categoryGroup txsC5x 2))))
      none) ∈ analyzeSpendingPatterns ⟨2026, 1, 1⟩ txsC5x ∧
    listMean (calculateMonthlyAmounts (categoryGroup txsC5x 2)) -
      listMin (calculateMonthlyAmounts (categoryGroup txsC5x 2)) = 140 / 3 := by
  have hv : calculateMonthlyAmounts (categoryGroup txsC5x 2) = [100, 100, 30] := by
    norm_num [calculateMonthlyAmounts, categoryGroup, mapBump, monthKey, txsC5x,
      mkTx, List.filter, List.foldl]
  have hlen : 3 ≤ (calculateMonthlyAmounts (categoryGroup txsC5x 2)).length := by
    rw [hv]; norm_num
  have hc : listMin (calculateMonthlyAmounts (categoryGroup txsC5x 2)) <
      listMean (calculateMonthlyAmounts (categoryGroup txsC5x 2)) * (7 / 10) := by
    rw [hv]; norm_num [listMin, listMean, List.foldl, min_def]
  have hid : 2 ∈ categoryIds txsC5x := by
    norm_num [categoryIds, dedupKeys, sortAsc, sortedInsert, expenseTransactions,
      txsC5x, mkTx, List.filter, List.foldl]
  have h := c5_savings_opportunity_iff ⟨2026, 1, 1⟩ txsC5x 2 hlen
  refine ⟨hlen, hc, hid, (h.1 hc).1, (h.1 hc).2 hid, ?_⟩
  rw [hv]; norm_num [listMin, listMean, List.foldl, min_def]

/-- Claim C1 counterexample: the same transaction list analyzed under a
2025-02 clock and a 2025-03 clock yields different outputs, so
`analyzeSpendingPatterns` is not a function of the transaction list
alone. -/
theorem c1_counterexample :
    analyzeSpendingPatterns ⟨2025, 2, 15⟩ txsC1x ≠
      analyzeSpendingPatterns ⟨2025, 3, 15⟩ txsC1x := by
  have h1 : analyzeSpendingPatterns ⟨2025, 2, 15⟩ txsC1x =
      [SpendingInsight.mk InsightType.warning (trendIncreaseMessage 100)
        (some 100) (some Trend.up)] := by
    norm_num [analyzeSpendingPatterns, analyzeSpendingTrend, calculateMonthlySpending,
      mapBump, mapGet, monthKey, prevMonthKey, trendInsights, detectUnusualSpending,
      unusualFor, calculateMonthlyAverages, calculateMonthlyAmounts,
      calculateCurrentMonthSpending, inCurrentMonth, listMean, calculateVariance,
      exceedsUnusualThreshold, findSavingsOpportunities, savingsFor, listMin,
      categoryIds, dedupKeys, sortAsc, sortedInsert, expenseTransactions,
      categoryGroup, categoryDisplayName, txsC1x, mkTx, List.filter, List.filterMap,
      List.foldl]
  have h2 : analyzeSpendingPatterns ⟨2025, 3, 15⟩ txsC1x =
      [SpendingInsight.mk InsightType.success (trendDecreaseMessage 100)
        (some 100) (some Trend.down)] := by
    norm_num [analyzeSpendingPatterns, analyzeSpendingTrend, calculateMonthlySpending,
      mapBump, mapGet, monthKey, prevMonthKey, trendInsights, detectUnusualSpending,
      unusualFor, calculateMonthlyAverages, calculateMonthlyAmounts,
      calculateCurrentMonthSpending, inCurrentMonth, listMean, calculateVariance,
      exceedsUnusualThreshold, findSavingsOpportunities, savingsFor, listMin,
      categoryIds, dedupKeys, sortAsc, sortedInsert, expenseTransactions,
      categoryGroup, categoryDisplayName, txsC1x, mkTx, List.filter, List.filterMap,
      List.foldl]
    exact fun hc => by cases hc
  rw [h1, h2]
  simp

/-- Claim C1, amended: both entry points are deterministic functions of
the transaction list together with the calendar month of the wall clock
at call time; the prediction entry point reads no clock at all. -/
theorem c1_pure_in_list_and_clock_month (d d' : YMDate) (txs txs' : List Transaction)
    (hy : d.year = d'.year) (hm : d.month = d'.month) (ht : txs = txs') :
    analyzeSpendingPatterns d txs = analyzeSpendingPatterns d' txs' ∧
    predictNextMonthSpending txs = predictNextMonthSpending txs' := by
  subst ht
  refine ⟨?_, rfl⟩
  obtain ⟨y, m, day⟩ := d
  obtain ⟨y', m', day'⟩ := d'
  have hy' : y = y' := hy
  have hm' : m = m' := hm
  subst hy'
  subst hm'
  have hu : unusualFor ⟨y, m, day⟩ txs = unusualFor ⟨y, m, day'⟩ txs := by
    funext cid
    simp only [unusualFor, calculateCurrentMonthSpending, inCurrentMonth, monthKey]
  simp only [analyzeSpendingPatterns, analyzeSpendingTrend, detectUnusualSpending,
    monthKey, prevMonthKey, hu]

/-- Witness for the amended C1 at two clock readings inside 2025-04. -/
theorem c1_witness :
    (⟨2025, 4, 1⟩ : YMDate).year = (⟨2025, 4, 30⟩ : YMDate).year ∧
    (⟨2025, 4, 1⟩ : YMDate).month = (⟨2025, 4, 30⟩ : YMDate).month ∧
    (analyzeSpendingPatterns ⟨2025, 4, 1⟩ txsC1x =
        analyzeSpendingPatterns ⟨2025, 4, 30⟩ txsC1x ∧
      predictNextMonthSpending txsC1x = predictNextMonthSpending txsC1x) :=
  ⟨rfl, rfl,
    c1_pure_in_list_and_clock_month ⟨2025, 4, 1⟩ ⟨2025, 4, 30⟩ txsC1x txsC1x rfl rfl rfl⟩

/-- Fold over a filtered list equals the fold over the whole list when
every dropped element is a no-op for the folding function. -/
theorem foldl_filter_noop {α β : Type} (q : α → Bool) (f : β → α → β)
    (hnoop : ∀ (b : β) (a : α), q a = false → f b a = b) :
    ∀ (l : List α) (b : β), (l.filter q).foldl f b = l.foldl f b := by
  intro l
  induction l with
  | nil => intro b; rfl
  | cons a l ih =>
      intro b
      by_cases hq : q a = true
      · rw [List.filter_cons_of_pos hq]
        simp only [List.foldl_cons]
        exact ih (f b a)
      · have hq' : q a = false := by simpa using hq
        rw [List.filter_cons_of_neg (by simp [hq'])]
        simp only [List.foldl_cons, hnoop b a hq']
        exact ih b

/-- Removing income transactions leaves the expense sublist unchanged. -/
theorem expense_removeIncome (txs : List Transaction) :
    expenseTransactions (removeIncome txs) = expenseTransactions txs := by
  unfold expenseTransactions removeIncome
  rw [List.filter_filter]
  refine List.filter_congr fun t _ => ?_
  cases h : t.type <;> simp [h]

/-- Removing income transactions changes no category bucket. -/
theorem categoryGroup_removeIncome (txs : List Transaction) (cid : ℕ) :
    categoryGroup (removeIncome txs) cid = categoryGroup txs cid := by
  unfold categoryGroup removeIncome
  rw [List.filter_filter]
  refine List.filter_congr fun t _ => ?_
  cases h : t.type <;> simp [h]

/-- Removing income transactions changes no monthly expense bucket. -/
theorem monthlySpending_removeIncome (txs : List Transaction) :
    calculateMonthlySpending (removeIncome txs) = calculateMonthlySpending txs := by
  unfold calculateMonthlySpending removeIncome
  refine foldl_filter_noop _ _ (fun b t hq => ?_) txs []
  have hinc : t.type = TransactionType.income := by simpa using hq
  rw [if_neg]
  rw [hinc]
  exact fun hcontra => by cases hcontra

/-- Claim C8: dropping every income-typed transaction changes neither
the analysis output nor the prediction output. -/
theorem c8_income_invariance (now : YMDate) (txs : List Transaction) :
    analyzeSpendingPatterns now (removeIncome txs) = analyzeSpendingPatterns now txs ∧
    predictNextMonthSpending (removeIncome txs) = predictNextMonthSpending txs := by
  have hms := monthlySpending_removeIncome txs
  have hids : categoryIds (removeIncome txs) = categoryIds txs := by
    unfold categoryIds
    rw [expense_removeIncome]
  have huf : unusualFor now (removeIncome txs) = unusualFor now txs := by
    funext cid
    simp only [unusualFor, categoryGroup_removeIncome txs cid]
  have hsf : savingsFor (removeIncome txs) = savingsFor txs := by
    funext cid
    simp only [savingsFor, categoryGroup_removeIncome txs cid]
  have hpf : predictionFor (removeIncome txs) = predictionFor txs := by
    funext cid
    simp only [predictionFor, categoryGroup_removeIncome txs cid]
  constructor
  · simp only [analyzeSpendingPatterns, detectUnusualSpending, findSavingsOpportunities,
      hms, hids, huf, hsf]
  · simp only [predictNextMonthSpending, hids, hpf]

/-- Claim C3 evaluated at the failing input: with the current month's
bucket inserted first, the spec's anomaly condition holds — three prior
months of 100 with current-month spend 1000 exceeds mean + 2·stddev —
yet the code emits no anomaly, because `slice(0, -1)` dropped the
2025-03 bucket instead of the current month's and kept the 1000 in the
baseline. -/
theorem c3_anomaly_baseline_bug :
    specHistoricalMonthlyTotals ⟨2025, 4, 15⟩ (categoryGroup txsC3x 1) = [100, 100, 100] ∧
    calculateCurrentMonthSpending ⟨2025, 4, 15⟩ (categoryGroup txsC3x 1) = 1000 ∧
    exceedsUnusualThreshold 1000 (listMean [100, 100, 100])
      (calculateVariance [100, 100, 100]) = true ∧
    calculateMonthlyAverages (categoryGroup txsC3x 1) = [1000, 100, 100] ∧
    detectUnusualSpending ⟨2025, 4, 15⟩ txsC3x = [] := by
  refine ⟨?_, ?_, ?_, ?_, ?_⟩
  · norm_num [specHistoricalMonthlyTotals, mapBump, monthKey, categoryGroup,
      txsC3x, mkTx, List.filter, List.foldl]
  · norm_num [calculateCurrentMonthSpending, inCurrentMonth, monthKey, categoryGroup,
      txsC3x, mkTx, List.filter, List.foldl]
  · norm_num [exceedsUnusualThreshold, listMean, calculateVariance]
  · norm_num [calculateMonthlyAverages, calculateMonthlyAmounts, mapBump, monthKey,
      categoryGroup, txsC3x, mkTx, List.filter, List.foldl]
  · norm_num [detectUnusualSpending, unusualFor, calculateMonthlyAverages,
      calculateMonthlyAmounts, calculateCurrentMonthSpending, inCurrentMonth,
      listMean, calculateVariance, exceedsUnusualThreshold, mapBump, monthKey,
      categoryIds, dedupKeys, sortAsc, sortedInsert, expenseTransactions,
      categoryGroup, txsC3x, mkTx, List.filter, List.filterMap, List.foldl]

end Arthatrack

